import Mathlib

/-!
Verification of the paginated artifact-search query builder of the
dataiku-api-client-python repository, file
`src/dataikuapi/govern/artifact_search_handler.py`.

The Python code builds JSON request bodies (dicts with insertion-ordered
keys) and drives cursor-based pagination.  We embed JSON values as an
inductive type `JValue` where a JSON object is an insertion-ordered
association list, matching Python dict semantics for the dicts built here
(no duplicate keys are ever produced by the code).  Python `None` and JSON
`null` are both represented by `JValue.null`, matching the fact that
Python's json layer maps null to None and the client code only ever
compares these values with `is not None`.
-/

inductive JValue where
  | null : JValue
  | bool (b : Bool) : JValue
  | int (n : Int) : JValue
  | str (s : String) : JValue
  | arr (xs : List JValue) : JValue
  | obj (fields : List (String × JValue)) : JValue
deriving Repr

namespace JValue

/-- Structural equality test for JSON values (Python `==` on parsed JSON). -/
def beq : JValue → JValue → Bool
  | .null, .null => true
  | .bool a, .bool b => a == b
  | .int a, .int b => a == b
  | .str a, .str b => a == b
  | .arr xs, .arr ys => beqList xs ys
  | .obj xs, .obj ys => beqFields xs ys
  | _, _ => false
where
  beqList : List JValue → List JValue → Bool
    | [], [] => true
    | x :: xs, y :: ys => beq x y && beqList xs ys
    | _, _ => false
  beqFields : List (String × JValue) → List (String × JValue) → Bool
    | [], [] => true
    | (k, v) :: xs, (l, w) :: ys => k == l && beq v w && beqFields xs ys
    | _, _ => false

instance : BEq JValue := ⟨beq⟩

/-- Looking a key up in a JSON object, Python `d[k]` / `d.get(k)` style:
returns the first binding of the key, if any. -/
def lookupKey (j : JValue) (k : String) : Option JValue :=
  match j with
  | .obj fields => fields.lookup k
  | _ => none

/-- Python `result.get(key)`: Python `dict.get` returns `None` both when the
key is missing and when the key is bound to `None` (the parse of JSON null),
so both cases yield `JValue.null` here. -/
def pyGet (j : JValue) (k : String) : JValue :=
  match lookupKey j k with
  | some v => v
  | none => .null

/-- Python `x is None` (with `JValue.null` standing for Python `None`). -/
def isNull : JValue → Bool
  | .null => true
  | _ => false

theorem isNull_eq_true {j : JValue} (h : j.isNull = true) : j = .null := by
  cases j <;> first | rfl | exact absurd h (by simp [isNull])

theorem isNull_eq_false {j : JValue} (h : j.isNull = false) : j ≠ .null := by
  cases j <;> simp_all [isNull]

end JValue

/-!
### Search sources

Python classes `GovernArtifactSearchSourceAll`,
`GovernArtifactSearchSourceBlueprints`,
`GovernArtifactSearchSourceBlueprintVersions`,
`GovernArtifactSearchSourceArtifacts`: each stores its ids and serializes
with `build()`.
-/

inductive GovernArtifactSearchSource where
  | all : GovernArtifactSearchSource
  | blueprints (blueprint_ids : List String) : GovernArtifactSearchSource
  | blueprintVersions (blueprint_version_ids : List JValue) : GovernArtifactSearchSource
  | artifacts (artifact_ids : List String) : GovernArtifactSearchSource

/-- `build()` of the four concrete search-source classes. -/
def GovernArtifactSearchSource.build : GovernArtifactSearchSource → JValue
  | .all => .obj [("type", .str "all")]
  | .blueprints ids =>
      .obj [("type", .str "blueprints"),
            ("blueprintIds", .arr (ids.map JValue.str))]
  | .blueprintVersions ids =>
      .obj [("type", .str "blueprintVersions"),
            ("blueprintVersionIds", .arr ids)]
  | .artifacts ids =>
      .obj [("type", .str "artifacts"),
            ("artifactIds", .arr (ids.map JValue.str))]

/-!
### Search sorts

Python classes `GovernArtifactSearchSortName`,
`GovernArtifactSearchSortWorkflow`, `GovernArtifactSearchSortField`.
Each `__init__` has the default parameter `direction="ASC"`.
-/

inductive GovernArtifactSearchSort where
  | name (direction : String) : GovernArtifactSearchSort
  | workflow (direction : String) : GovernArtifactSearchSort
  | field (fields : List JValue) (direction : String) : GovernArtifactSearchSort

/-- `build()` of the three concrete sort classes. -/
def GovernArtifactSearchSort.build : GovernArtifactSearchSort → JValue
  | .name d => .obj [("direction", .str d), ("column", .obj [("type", .str "name")])]
  | .workflow d => .obj [("direction", .str d), ("column", .obj [("type", .str "workflow")])]
  | .field fs d =>
      .obj [("direction", .str d),
            ("column", .obj [("type", .str "field"), ("fields", .arr fs)])]

/-- The Python default value of the `direction` parameter of
`GovernArtifactSearchSortName.__init__`, `GovernArtifactSearchSortWorkflow.__init__`
and `GovernArtifactSearchSortField.__init__`. -/
def sortDirectionDefault : String := "ASC"

/-- `GovernArtifactSearchSortName(direction)`. -/
def GovernArtifactSearchSortName (direction : String) : GovernArtifactSearchSort :=
  .name direction

/-- `GovernArtifactSearchSortWorkflow(direction)`. -/
def GovernArtifactSearchSortWorkflow (direction : String) : GovernArtifactSearchSort :=
  .workflow direction

/-- `GovernArtifactSearchSortField(fields, direction)`; the Python default
for `fields` is the empty list. -/
def GovernArtifactSearchSortField (fields : List JValue) (direction : String) :
    GovernArtifactSearchSort :=
  .field fields direction

/-!
### Filters

Python classes `GovernFieldValueArtifactFilter` (optional attributes stored
as `None` when unset) and `GovernArchivedStatusArtifactFilter`.
-/

structure GovernFieldValueArtifactFilter where
  condition_type : String
  condition : Option String
  field_id : Option String
  negate_condition : Option Bool
  case_sensitive : Option Bool

/-- `GovernFieldValueArtifactFilter.build`: starts from the two mandatory
keys and appends each optional key only when the attribute is not `None`,
in source order. -/
def GovernFieldValueArtifactFilter.build (f : GovernFieldValueArtifactFilter) : JValue :=
  .obj ([("type", .str "field"), ("conditionType", .str f.condition_type)]
    ++ (match f.condition with
        | some c => [("condition", JValue.str c)]
        | none => [])
    ++ (match f.field_id with
        | some i => [("fieldId", JValue.str i)]
        | none => [])
    ++ (match f.negate_condition with
        | some b => [("negateCondition", JValue.bool b)]
        | none => [])
    ++ (match f.case_sensitive with
        | some b => [("caseSensitive", JValue.bool b)]
        | none => []))

inductive GovernArtifactFilter where
  | fieldValue (f : GovernFieldValueArtifactFilter) : GovernArtifactFilter
  | archivedStatus (is_archived : Bool) : GovernArtifactFilter

/-- `build()` of the two concrete filter classes;
`GovernArchivedStatusArtifactFilter.build` is the archived case. -/
def GovernArtifactFilter.build : GovernArtifactFilter → JValue
  | .fieldValue f => f.build
  | .archivedStatus b => .obj [("type", .str "archived"), ("isArchived", .bool b)]

/-!
### The query object

Python class `GovernArtifactSearchQuery`: a mutable builder holding a
source (defaulted to `GovernArtifactSearchSourceAll()`), an
insertion-ordered filter list and an optional sort.
-/

structure GovernArtifactSearchQuery where
  artifact_search_source : GovernArtifactSearchSource
  artifact_filters_list : List GovernArtifactFilter
  artifact_search_sort : Option GovernArtifactSearchSort

/-- `GovernArtifactSearchQuery.__init__`: every parameter defaults to
`None`; a `None` source becomes `GovernArtifactSearchSourceAll()` and a
`None` filter list becomes the empty list. -/
def mkGovernArtifactSearchQuery (artifact_search_source : Option GovernArtifactSearchSource)
    (artifact_filters_list : Option (List GovernArtifactFilter))
    (artifact_search_sort : Option GovernArtifactSearchSort) : GovernArtifactSearchQuery :=
  { artifact_search_source := artifact_search_source.getD .all
    artifact_filters_list := artifact_filters_list.getD []
    artifact_search_sort := artifact_search_sort }

namespace GovernArtifactSearchQuery

/-- `set_artifact_search_source`. -/
def set_artifact_search_source (q : GovernArtifactSearchQuery)
    (s : GovernArtifactSearchSource) : GovernArtifactSearchQuery :=
  { q with artifact_search_source := s }

/-- `clear_artifact_filters`: rebinds the filter list to a fresh empty list. -/
def clear_artifact_filters (q : GovernArtifactSearchQuery) : GovernArtifactSearchQuery :=
  { q with artifact_filters_list := [] }

/-- `add_artifact_filter`: appends to the filter list. -/
def add_artifact_filter (q : GovernArtifactSearchQuery)
    (f : GovernArtifactFilter) : GovernArtifactSearchQuery :=
  { q with artifact_filters_list := q.artifact_filters_list ++ [f] }

/-- `clear_artifact_search_sort`. -/
def clear_artifact_search_sort (q : GovernArtifactSearchQuery) : GovernArtifactSearchQuery :=
  { q with artifact_search_sort := none }

/-- `set_artifact_search_sort`. -/
def set_artifact_search_sort (q : GovernArtifactSearchQuery)
    (s : GovernArtifactSearchSort) : GovernArtifactSearchQuery :=
  { q with artifact_search_sort := s }

/-- `GovernArtifactSearchQuery.build`: returns the pair
(source payload, query payload); the query payload always carries
`artifactFilters` (the built filters in list order) and carries
`artifactSearchSort` only when a sort is set. -/
def build (q : GovernArtifactSearchQuery) : JValue × JValue :=
  let query := JValue.obj
    ([("artifactFilters", .arr (q.artifact_filters_list.map GovernArtifactFilter.build))]
      ++ (match q.artifact_search_sort with
          | some s => [("artifactSearchSort", s.build)]
          | none => []))
  (q.artifact_search_source.build, query)

end GovernArtifactSearchQuery

/-!
### The search request and `perform_search`

Python class `GovernArtifactSearchRequest`.  Its `__init__` snapshots the
query by calling `artifact_search_query.build()` once and stores the two
resulting payloads; `self.last_artifact_id` starts as `None`
(`JValue.null` here).

`perform_search(page_size=20, last_artifact_id=None)`:
1. if the explicit argument is not `None`, it is assigned to
   `self.last_artifact_id` first;
2. the body dict is built from the stored source, query and cursor;
3. the transport call `self.client._perform_json(...)` runs; an exception
   propagates, leaving the state as of step 1;
4. on success `self.last_artifact_id := result.get("lastArtifactId")`.

The HTTP transport is external: we model it as a function from the body to
`Except TransportError JValue`; `.error` is the transport raising.
-/

/-- A remote call failure raised by the transport collaborator (an HTTP
error or network fault); the client code never inspects it. -/
structure TransportError where
  message : String

abbrev Transport := JValue → Except TransportError JValue

structure GovernArtifactSearchRequest where
  search_source : JValue
  query : JValue
  last_artifact_id : JValue

/-- `GovernArtifactSearchRequest.__init__`: snapshots
`artifact_search_query.build()` and starts with a `None` cursor. -/
def mkGovernArtifactSearchRequest (artifact_search_query : GovernArtifactSearchQuery) :
    GovernArtifactSearchRequest :=
  { search_source := (artifact_search_query.build).1
    query := (artifact_search_query.build).2
    last_artifact_id := .null }

namespace GovernArtifactSearchRequest

/-- The Python default of the `page_size` parameter of `perform_search`. -/
def pageSizeDefault : Int := 20

/-- Step 1 of `perform_search`: `if last_artifact_id is not None:
self.last_artifact_id = last_artifact_id`. -/
def applyCursorOverride (req : GovernArtifactSearchRequest) (last_artifact_id : JValue) :
    GovernArtifactSearchRequest :=
  match last_artifact_id with
  | .null => req
  | v => { req with last_artifact_id := v }

/-- The `body` dict built by `perform_search` from the current state. -/
def searchBody (req : GovernArtifactSearchRequest) (page_size : Int) : JValue :=
  .obj [("searchSource", req.search_source),
        ("query", req.query),
        ("artifactSearchPagination",
          .obj [("pageSize", .int page_size),
                ("lastArtifactId", req.last_artifact_id)])]

/-- The body that a `perform_search(page_size, last_artifact_id)` call
sends over the transport: the override of step 1 has already been applied. -/
def sentBody (req : GovernArtifactSearchRequest) (page_size : Int)
    (last_artifact_id : JValue) : JValue :=
  (req.applyCursorOverride last_artifact_id).searchBody page_size

/-- `perform_search`: returns the transport outcome together with the
request state after the call (the state the Python object is left in,
whether the call raised or returned). -/
def perform_search (req : GovernArtifactSearchRequest) (page_size : Int)
    (last_artifact_id : JValue) (transport : Transport) :
    Except TransportError JValue × GovernArtifactSearchRequest :=
  let req1 := req.applyCursorOverride last_artifact_id
  let body := req1.searchBody page_size
  match transport body with
  | .ok result =>
      (.ok result, { req1 with last_artifact_id := result.pyGet "lastArtifactId" })
  | .error e => (.error e, req1)

end GovernArtifactSearchRequest

/-!
### Traces of calls

For the reachability claims we run a `GovernArtifactSearchRequest` through
an arbitrary sequence of `perform_search` invocations, each with its own
`page_size`, explicit cursor argument and transport behaviour, and record
which successful responses the server returned and which explicit cursor
arguments were supplied to calls whose transport raised.
-/

structure SearchCall where
  page_size : Int
  last_artifact_id : JValue
  transport : Transport

structure TraceState where
  req : GovernArtifactSearchRequest
  /-- The results of the successful transport calls so far. -/
  responses : List JValue
  /-- The explicit (non-None) cursor arguments of the calls whose
  transport raised. -/
  failedOverrides : List JValue

def initTrace (q : GovernArtifactSearchQuery) : TraceState :=
  { req := mkGovernArtifactSearchRequest q
    responses := []
    failedOverrides := [] }

def stepTrace (s : TraceState) (c : SearchCall) : TraceState :=
  let out := s.req.perform_search c.page_size c.last_artifact_id c.transport
  match out.1 with
  | .ok result => { s with req := out.2, responses := result :: s.responses }
  | .error _ =>
      { s with req := out.2
               failedOverrides :=
                 if c.last_artifact_id.isNull then s.failedOverrides
                 else c.last_artifact_id :: s.failedOverrides }

def runTrace (s : TraceState) (cs : List SearchCall) : TraceState :=
  cs.foldl stepTrace s

/-!
### Query mutation after request construction

To study whether mutating a `GovernArtifactSearchQuery` after a
`GovernArtifactSearchRequest` was built from it can influence the bodies
of later `perform_search` calls, we run a world holding both objects
through an arbitrary interleaving of the five mutating query methods and
search calls.
-/

inductive QueryOp where
  | addFilter (f : GovernArtifactFilter) : QueryOp
  | clearFilters : QueryOp
  | setSort (s : GovernArtifactSearchSort) : QueryOp
  | clearSort : QueryOp
  | setSource (s : GovernArtifactSearchSource) : QueryOp

def applyQueryOp (q : GovernArtifactSearchQuery) : QueryOp → GovernArtifactSearchQuery
  | .addFilter f => q.add_artifact_filter f
  | .clearFilters => q.clear_artifact_filters
  | .setSort s => q.set_artifact_search_sort s
  | .clearSort => q.clear_artifact_search_sort
  | .setSource s => q.set_artifact_search_source s

inductive WorldOp where
  | mutate (op : QueryOp) : WorldOp
  | search (c : SearchCall) : WorldOp

structure World where
  query : GovernArtifactSearchQuery
  req : GovernArtifactSearchRequest

def stepWorld (w : World) : WorldOp → World
  | .mutate op => { w with query := applyQueryOp w.query op }
  | .search c =>
      { w with req := (w.req.perform_search c.page_size c.last_artifact_id c.transport).2 }

def runWorld (w : World) (ops : List WorldOp) : World :=
  ops.foldl stepWorld w

/-- A query with a sequence of `add_artifact_filter` calls applied in order. -/
def addFilters (q : GovernArtifactSearchQuery) (fs : List GovernArtifactFilter) :
    GovernArtifactSearchQuery :=
  fs.foldl GovernArtifactSearchQuery.add_artifact_filter q

/-- A transport whose remote call always fails. -/
def failTransport : Transport := fun _ => .error ⟨"remote call failure"⟩

/-!
### Helper lemmas
-/

theorem applyCursorOverride_search_source (req : GovernArtifactSearchRequest) (arg : JValue) :
    (req.applyCursorOverride arg).search_source = req.search_source := by
  cases arg <;> rfl

theorem applyCursorOverride_query (req : GovernArtifactSearchRequest) (arg : JValue) :
    (req.applyCursorOverride arg).query = req.query := by
  cases arg <;> rfl

theorem applyCursorOverride_of_ne_null (req : GovernArtifactSearchRequest) (arg : JValue)
    (h : arg ≠ .null) :
    req.applyCursorOverride arg = { req with last_artifact_id := arg } := by
  cases arg <;> first | exact absurd rfl h | rfl

theorem perform_search_search_source (req : GovernArtifactSearchRequest) (ps : Int)
    (arg : JValue) (t : Transport) :
    ((req.perform_search ps arg t).2).search_source = req.search_source := by
  unfold GovernArtifactSearchRequest.perform_search
  cases h : t ((req.applyCursorOverride arg).searchBody ps) <;>
    simp [h, applyCursorOverride_search_source]

theorem perform_search_query (req : GovernArtifactSearchRequest) (ps : Int)
    (arg : JValue) (t : Transport) :
    ((req.perform_search ps arg t).2).query = req.query := by
  unfold GovernArtifactSearchRequest.perform_search
  cases h : t ((req.applyCursorOverride arg).searchBody ps) <;>
    simp [h, applyCursorOverride_query]

theorem addFilters_filters_list (q : GovernArtifactSearchQuery)
    (fs : List GovernArtifactFilter) :
    (addFilters q fs).artifact_filters_list = q.artifact_filters_list ++ fs := by
  induction fs generalizing q with
  | nil => simp [addFilters]
  | cons f fs ih =>
      simp [addFilters] at ih ⊢
      rw [ih]
      simp [GovernArtifactSearchQuery.add_artifact_filter]

theorem sentBody_searchSource (req : GovernArtifactSearchRequest) (ps : Int) (arg : JValue) :
    (req.sentBody ps arg).lookupKey "searchSource"
      = some (req.applyCursorOverride arg).search_source := rfl

theorem sentBody_queryKey (req : GovernArtifactSearchRequest) (ps : Int) (arg : JValue) :
    (req.sentBody ps arg).lookupKey "query"
      = some (req.applyCursorOverride arg).query := rfl

theorem sentBody_pagination_cursor (req : GovernArtifactSearchRequest) (ps : Int)
    (arg : JValue) :
    ((req.sentBody ps arg).pyGet "artifactSearchPagination").pyGet "lastArtifactId"
      = (req.applyCursorOverride arg).last_artifact_id := rfl

theorem perform_search_state_ok (req : GovernArtifactSearchRequest) (ps : Int) (arg : JValue)
    (t : Transport) (result : JValue) (h : t (req.sentBody ps arg) = .ok result) :
    (req.perform_search ps arg t).2
      = { req.applyCursorOverride arg with last_artifact_id := result.pyGet "lastArtifactId" } := by
  have hb : t ((req.applyCursorOverride arg).searchBody ps) = .ok result := h
  simp [GovernArtifactSearchRequest.perform_search, hb]

theorem perform_search_state_error (req : GovernArtifactSearchRequest) (ps : Int) (arg : JValue)
    (t : Transport) (e : TransportError) (h : t (req.sentBody ps arg) = .error e) :
    (req.perform_search ps arg t).2 = req.applyCursorOverride arg := by
  have hb : t ((req.applyCursorOverride arg).searchBody ps) = .error e := h
  simp [GovernArtifactSearchRequest.perform_search, hb]

/-- A transport whose remote call always succeeds with the response `r`. -/
def okTransport (r : JValue) : Transport := fun _ => .ok r

/-- A freshly constructed request over the default query. -/
def reqExample : GovernArtifactSearchRequest :=
  mkGovernArtifactSearchRequest (mkGovernArtifactSearchQuery none none none)

/-- A typical server response carrying a next-page cursor. -/
def respExample : JValue :=
  .obj [("uiArtifacts", .arr []), ("hasNextPage", .bool true),
        ("lastArtifactId", .str "art-42")]

/-!
### The claims
-/

/-- C5.  End-to-end build scenario: a query constructed with no arguments,
after `add_artifact_filter(GovernArchivedStatusArtifactFilter(is_archived=False))`
and `set_artifact_search_sort(GovernArtifactSearchSortName("DESC"))`, builds
to exactly the expected (source payload, query payload) pair; in particular
the default source serializes to the object with a single key `type`
mapped to `all`. -/
theorem end_to_end_build_scenario :
    (((mkGovernArtifactSearchQuery none none none).add_artifact_filter
        (.archivedStatus false)).set_artifact_search_sort
        (GovernArtifactSearchSortName "DESC")).build =
    (JValue.obj [("type", .str "all")],
     JValue.obj [("artifactFilters",
                   .arr [.obj [("type", .str "archived"), ("isArchived", .bool false)]]),
                 ("artifactSearchSort",
                   .obj [("direction", .str "DESC"),
                         ("column", .obj [("type", .str "name")])])]) := rfl

/-- C7.  Optional-key omission: a `GovernFieldValueArtifactFilter` built
with only a condition type (all optional attributes `None`) serializes to
exactly the two-key object with `type` and `conditionType`; the keys
`condition`, `fieldId`, `negateCondition` and `caseSensitive` are absent
rather than present with null values. -/
theorem field_filter_optional_key_omission (condition_type : String) :
    (GovernFieldValueArtifactFilter.mk condition_type none none none none).build
      = .obj [("type", .str "field"), ("conditionType", .str condition_type)] := rfl

/-- C8.  Empty-query build: any query whose filter list is empty (never
filled, or reset by `clear_artifact_filters`) and whose sort is unset
builds a query payload equal to the object carrying only the key
`artifactFilters` mapped to the empty array — no `artifactSearchSort` key. -/
theorem empty_query_build (q : GovernArtifactSearchQuery)
    (hf : q.artifact_filters_list = []) (hs : q.artifact_search_sort = none) :
    (q.build).2 = JValue.obj [("artifactFilters", .arr [])] := by
  simp [GovernArtifactSearchQuery.build, hf, hs]

/-- Witness for C8, on the query obtained by adding a filter and a sort
and then clearing both. -/
theorem empty_query_build_witness :
    ((((mkGovernArtifactSearchQuery none none none).add_artifact_filter
        (.archivedStatus true)).set_artifact_search_sort
        (GovernArtifactSearchSortName "DESC")).clear_artifact_filters.clear_artifact_search_sort).artifact_filters_list
        = [] ∧
    ((((mkGovernArtifactSearchQuery none none none).add_artifact_filter
        (.archivedStatus true)).set_artifact_search_sort
        (GovernArtifactSearchSortName "DESC")).clear_artifact_filters.clear_artifact_search_sort).artifact_search_sort
        = none ∧
    (((((mkGovernArtifactSearchQuery none none none).add_artifact_filter
        (.archivedStatus true)).set_artifact_search_sort
        (GovernArtifactSearchSortName "DESC")).clear_artifact_filters.clear_artifact_search_sort).build).2
        = JValue.obj [("artifactFilters", .arr [])] :=
  ⟨rfl, rfl, empty_query_build _ rfl rfl⟩

/-- C9.  Filter order preservation: starting from a query with any source
and sort and no filters, applying any sequence of `add_artifact_filter`
calls yields a build whose `artifactFilters` entry is exactly the list of
the added filters' payloads in insertion order. -/
theorem filter_order_preservation (src : GovernArtifactSearchSource)
    (sort : Option GovernArtifactSearchSort) (fs : List GovernArtifactFilter) :
    ((addFilters (mkGovernArtifactSearchQuery (some src) none sort) fs).build).2.lookupKey
        "artifactFilters" = some (.arr (fs.map GovernArtifactFilter.build)) := by
  simp [GovernArtifactSearchQuery.build, JValue.lookupKey, addFilters_filters_list,
        mkGovernArtifactSearchQuery]

/-- C10.  Default sort direction: each of the three sort constructors,
applied at the Python default direction argument, builds a payload whose
`direction` entry is the string `ASC`. -/
theorem default_sort_direction_is_asc :
    (GovernArtifactSearchSortName sortDirectionDefault).build.lookupKey "direction"
        = some (.str "ASC") ∧
    (GovernArtifactSearchSortWorkflow sortDirectionDefault).build.lookupKey "direction"
        = some (.str "ASC") ∧
    ∀ fields : List JValue,
      (GovernArtifactSearchSortField fields sortDirectionDefault).build.lookupKey "direction"
        = some (.str "ASC") :=
  ⟨rfl, rfl, fun _ => rfl⟩

/-- C1, counterexample to the claim as stated: on a fresh request (stored
cursor `None`), a `perform_search` call with an explicit cursor argument
whose transport raises leaves the stored cursor different from what it was
before the call — the explicit argument is assigned to the cursor before
the transport call runs. -/
theorem cursor_atomicity_counterexample :
    (reqExample.perform_search GovernArtifactSearchRequest.pageSizeDefault
        (.str "art-1") failTransport).1 = .error ⟨"remote call failure"⟩ ∧
    ¬ ((reqExample.perform_search GovernArtifactSearchRequest.pageSizeDefault
        (.str "art-1") failTransport).2.last_artifact_id = reqExample.last_artifact_id) :=
  ⟨rfl, fun h => JValue.noConfusion h⟩

/-- C1, amended: if the transport call raises, the stored cursor is
unchanged when the call was made without an explicit `last_artifact_id`
(the argument is `None`); when an explicit non-None value was supplied,
the stored cursor after the failed call equals that explicit value, since
the override is applied before the transport call. -/
theorem cursor_after_failed_search (req : GovernArtifactSearchRequest) (page_size : Int)
    (arg : JValue) (transport : Transport) (e : TransportError)
    (h : transport (req.sentBody page_size arg) = .error e) :
    (arg = .null → ((req.perform_search page_size arg transport).2).last_artifact_id
        = req.last_artifact_id) ∧
    (arg ≠ .null → ((req.perform_search page_size arg transport).2).last_artifact_id = arg) := by
  rw [perform_search_state_error req page_size arg transport e h]
  constructor
  · intro hn
    subst hn
    rfl
  · intro hn
    rw [applyCursorOverride_of_ne_null req arg hn]

/-- Witness for C1 (amended), on a failing call with an explicit cursor
and on a failing call without one. -/
theorem cursor_after_failed_search_witness :
    failTransport (reqExample.sentBody 20 (.str "art-9")) = .error ⟨"remote call failure"⟩ ∧
    ((reqExample.perform_search 20 (.str "art-9") failTransport).2).last_artifact_id
        = .str "art-9" ∧
    ((reqExample.perform_search 20 .null failTransport).2).last_artifact_id
        = reqExample.last_artifact_id :=
  ⟨rfl,
   (cursor_after_failed_search reqExample 20 (.str "art-9") failTransport
      ⟨"remote call failure"⟩ rfl).2 (fun hcon => JValue.noConfusion hcon),
   (cursor_after_failed_search reqExample 20 .null failTransport
      ⟨"remote call failure"⟩ rfl).1 rfl⟩

/-- C3.  Cursor advance on success: after a successful `perform_search`,
the stored cursor equals `result.get("lastArtifactId")` — the value the
response maps `lastArtifactId` to, and `None` when the key is absent or
null — and any later `perform_search` without an explicit argument sends
that stored value as `artifactSearchPagination.lastArtifactId`. -/
theorem cursor_advance_on_success (req : GovernArtifactSearchRequest) (page_size : Int)
    (arg : JValue) (transport : Transport) (result : JValue)
    (h : transport (req.sentBody page_size arg) = .ok result) :
    ((req.perform_search page_size arg transport).2).last_artifact_id
        = result.pyGet "lastArtifactId" ∧
    ((result.lookupKey "lastArtifactId" = none ∨ result.lookupKey "lastArtifactId" = some .null) →
      ((req.perform_search page_size arg transport).2).last_artifact_id = .null) ∧
    ∀ ps2 : Int,
      ((((req.perform_search page_size arg transport).2).sentBody ps2 .null).pyGet
          "artifactSearchPagination").pyGet "lastArtifactId"
        = result.pyGet "lastArtifactId" := by
  rw [perform_search_state_ok req page_size arg transport result h]
  refine ⟨rfl, ?_, fun ps2 => ?_⟩
  · intro hnull
    rcases hnull with hn | hn <;> simp [JValue.pyGet, hn]
  · rw [sentBody_pagination_cursor]
    rfl

/-- Witness for C3, on a fresh request and a response carrying the cursor
string `art-42`. -/
theorem cursor_advance_on_success_witness :
    okTransport respExample (reqExample.sentBody 20 .null) = .ok respExample ∧
    ((reqExample.perform_search 20 .null (okTransport respExample)).2).last_artifact_id
        = respExample.pyGet "lastArtifactId" ∧
    ((respExample.lookupKey "lastArtifactId" = none ∨
        respExample.lookupKey "lastArtifactId" = some .null) →
      ((reqExample.perform_search 20 .null (okTransport respExample)).2).last_artifact_id
        = .null) ∧
    ∀ ps2 : Int,
      ((((reqExample.perform_search 20 .null (okTransport respExample)).2).sentBody ps2
          .null).pyGet "artifactSearchPagination").pyGet "lastArtifactId"
        = respExample.pyGet "lastArtifactId" :=
  ⟨rfl, cursor_advance_on_success reqExample 20 .null (okTransport respExample) respExample rfl⟩

/-- C4.  Explicit cursor override: when a non-None value `L` is passed as
`last_artifact_id`, that call's body carries
`artifactSearchPagination.lastArtifactId = L` whatever cursor was stored
before, and after a successful response the stored cursor is the
response's `lastArtifactId` value. -/
theorem explicit_cursor_override (req : GovernArtifactSearchRequest) (page_size : Int)
    (L : JValue) (hL : L ≠ .null) (transport : Transport) :
    ((req.sentBody page_size L).pyGet "artifactSearchPagination").pyGet "lastArtifactId" = L ∧
    ∀ result : JValue, transport (req.sentBody page_size L) = .ok result →
      ((req.perform_search page_size L transport).2).last_artifact_id
        = result.pyGet "lastArtifactId" := by
  constructor
  · rw [sentBody_pagination_cursor, applyCursorOverride_of_ne_null req L hL]
  · intro result h
    rw [perform_search_state_ok req page_size L transport result h]

/-- Witness for C4, overriding a fresh request's `None` cursor with the
string `art-7`. -/
theorem explicit_cursor_override_witness :
    (JValue.str "art-7" ≠ JValue.null) ∧
    ((reqExample.sentBody 20 (.str "art-7")).pyGet "artifactSearchPagination").pyGet
        "lastArtifactId" = .str "art-7" ∧
    ∀ result : JValue,
      okTransport respExample (reqExample.sentBody 20 (.str "art-7")) = .ok result →
        ((reqExample.perform_search 20 (.str "art-7") (okTransport respExample)).2).last_artifact_id
          = result.pyGet "lastArtifactId" :=
  ⟨fun h => JValue.noConfusion h,
   explicit_cursor_override reqExample 20 (.str "art-7") (fun h => JValue.noConfusion h)
     (okTransport respExample)⟩

/-- The provenance of the stored cursor in a reachable trace state: it is
absent, or was returned as `lastArtifactId` by some earlier successful
response, or is the explicit cursor argument of some call whose transport
raised. -/
def cursorProvenance (s : TraceState) : Prop :=
  s.req.last_artifact_id = .null ∨
  (∃ r ∈ s.responses, r.pyGet "lastArtifactId" = s.req.last_artifact_id) ∨
  s.req.last_artifact_id ∈ s.failedOverrides

theorem stepTrace_req (s : TraceState) (c : SearchCall) :
    (stepTrace s c).req
      = (s.req.perform_search c.page_size c.last_artifact_id c.transport).2 := by
  simp only [stepTrace]
  cases hx : (s.req.perform_search c.page_size c.last_artifact_id c.transport).1 <;> rfl

theorem stepTrace_cursorProvenance (s : TraceState) (c : SearchCall)
    (h : cursorProvenance s) : cursorProvenance (stepTrace s c) := by
  cases htr : c.transport (s.req.sentBody c.page_size c.last_artifact_id) with
  | ok result =>
      have hfst : (s.req.perform_search c.page_size c.last_artifact_id c.transport).1
          = .ok result := by
        have hb : c.transport ((s.req.applyCursorOverride c.last_artifact_id).searchBody
            c.page_size) = .ok result := htr
        simp [GovernArtifactSearchRequest.perform_search, hb]
      have hcursor : (stepTrace s c).req.last_artifact_id = result.pyGet "lastArtifactId" := by
        rw [stepTrace_req, perform_search_state_ok s.req c.page_size c.last_artifact_id
          c.transport result htr]
      have hresp : (stepTrace s c).responses = result :: s.responses := by
        simp only [stepTrace]
        rw [hfst]
      exact Or.inr (Or.inl ⟨result, by rw [hresp]; exact List.mem_cons_self result s.responses,
        hcursor.symm⟩)
  | error e =>
      have hfst : (s.req.perform_search c.page_size c.last_artifact_id c.transport).1
          = .error e := by
        have hb : c.transport ((s.req.applyCursorOverride c.last_artifact_id).searchBody
            c.page_size) = .error e := htr
        simp [GovernArtifactSearchRequest.perform_search, hb]
      have hreq : (stepTrace s c).req = s.req.applyCursorOverride c.last_artifact_id := by
        rw [stepTrace_req, perform_search_state_error s.req c.page_size c.last_artifact_id
          c.transport e htr]
      have hresp : (stepTrace s c).responses = s.responses := by
        simp only [stepTrace]
        rw [hfst]
      cases hnull : c.last_artifact_id.isNull with
      | true =>
          have heq : c.last_artifact_id = .null := JValue.isNull_eq_true hnull
          have hfo : (stepTrace s c).failedOverrides = s.failedOverrides := by
            simp only [stepTrace]
            rw [hfst]
            simp [hnull]
          have hsame : (stepTrace s c).req = s.req := by
            rw [hreq, heq]
            rfl
          rcases h with h1 | ⟨r, hr, hv⟩ | h3
          · exact Or.inl (by rw [hsame]; exact h1)
          · exact Or.inr (Or.inl ⟨r, by rw [hresp]; exact hr, by rw [hsame, hv]⟩)
          · exact Or.inr (Or.inr (by rw [hsame, hfo]; exact h3))
      | false =>
          have hne : c.last_artifact_id ≠ .null := JValue.isNull_eq_false hnull
          have hfo : (stepTrace s c).failedOverrides
              = c.last_artifact_id :: s.failedOverrides := by
            simp only [stepTrace]
            rw [hfst]
            simp [hnull]
          have hcursor : (stepTrace s c).req.last_artifact_id = c.last_artifact_id := by
            rw [hreq, applyCursorOverride_of_ne_null s.req c.last_artifact_id hne]
          refine Or.inr (Or.inr ?_)
          rw [hfo, hcursor]
          exact List.mem_cons_self c.last_artifact_id s.failedOverrides

theorem runTrace_cursorProvenance (cs : List SearchCall) (s : TraceState)
    (h : cursorProvenance s) : cursorProvenance (runTrace s cs) := by
  induction cs generalizing s with
  | nil => exact h
  | cons c cs ih => exact ih (stepTrace s c) (stepTrace_cursorProvenance s c h)

/-- C2, counterexample to the claim as stated: after the single call
`perform_search(20, "client-guess")` on a fresh request whose transport
raises, the stored cursor is the client-supplied string `client-guess`,
which is neither absent nor taken from any successful server response
(there was none). -/
theorem cursor_provenance_counterexample :
    ¬ (((runTrace (initTrace (mkGovernArtifactSearchQuery none none none))
            [⟨20, .str "client-guess", failTransport⟩]).req.last_artifact_id = .null) ∨
        ∃ r ∈ (runTrace (initTrace (mkGovernArtifactSearchQuery none none none))
            [⟨20, .str "client-guess", failTransport⟩]).responses,
          r.pyGet "lastArtifactId"
            = (runTrace (initTrace (mkGovernArtifactSearchQuery none none none))
                [⟨20, .str "client-guess", failTransport⟩]).req.last_artifact_id) := by
  intro h
  rcases h with h | ⟨r, hr, _⟩
  · exact JValue.noConfusion h
  · exact List.not_mem_nil r hr

/-- C2, amended: in every reachable state of a request (any sequence of
`perform_search` calls from construction), the stored cursor is absent,
or a value returned by the server as `lastArtifactId` in some earlier
successful response, or the explicit `last_artifact_id` argument of some
earlier call whose transport raised (the override is applied before the
transport call, so a failed call can leave a client-supplied cursor). -/
theorem cursor_provenance_invariant (q : GovernArtifactSearchQuery)
    (cs : List SearchCall) : cursorProvenance (runTrace (initTrace q) cs) :=
  runTrace_cursorProvenance cs (initTrace q) (Or.inl rfl)

theorem runWorld_req_payloads (w : World) (ops : List WorldOp) :
    (runWorld w ops).req.search_source = w.req.search_source ∧
    (runWorld w ops).req.query = w.req.query := by
  induction ops generalizing w with
  | nil => exact ⟨rfl, rfl⟩
  | cons op ops ih =>
      have hstep : (stepWorld w op).req.search_source = w.req.search_source ∧
          (stepWorld w op).req.query = w.req.query := by
        cases op with
        | mutate o => exact ⟨rfl, rfl⟩
        | search c =>
            exact ⟨perform_search_search_source w.req c.page_size c.last_artifact_id c.transport,
                   perform_search_query w.req c.page_size c.last_artifact_id c.transport⟩
      have htail := ih (stepWorld w op)
      exact ⟨htail.1.trans hstep.1, htail.2.trans hstep.2⟩

/-- C6.  Query snapshot at request construction: a request built from a
query stores the result of the query's `build()` once; after any
interleaving of the five mutating query methods and further searches, the
body of any `perform_search` call still carries the construction-time
`searchSource` and `query` payloads — later mutation of the query object
never changes what a search sends. -/
theorem query_snapshot_at_request_construction (q : GovernArtifactSearchQuery)
    (ops : List WorldOp) (ps : Int) (arg : JValue) :
    ((runWorld ⟨q, mkGovernArtifactSearchRequest q⟩ ops).req.sentBody ps arg).lookupKey
        "searchSource" = some (q.build).1 ∧
    ((runWorld ⟨q, mkGovernArtifactSearchRequest q⟩ ops).req.sentBody ps arg).lookupKey
        "query" = some (q.build).2 := by
  obtain ⟨h1, h2⟩ := runWorld_req_payloads ⟨q, mkGovernArtifactSearchRequest q⟩ ops
  constructor
  · rw [sentBody_searchSource, applyCursorOverride_search_source, h1]
    rfl
  · rw [sentBody_queryKey, applyCursorOverride_query, h2]
    rfl
